import Mathlib

/-!
Verification of the schema-driven code generator in `src/codegen/src/generator.rs`
of the slack-rs-api repository.

The generator maps an in-memory schema model (modules, methods, parameters,
response schemas, property-type trees) to generated Rust source text.  We embed:

* the schema data model (the `json_schema` crate's types are external to the
  repository sources; they are modelled from the specification's §3 data model);
* the generation functions of `generator.rs` (panics are modelled as `Except.error`);
* the runtime semantics of the generated code templates (the `to_result`
  success/failure facade, the discriminated-union deserialization routine, and
  the parameter-map insertions), translated from the literal templates embedded
  in `generator.rs`.
-/

set_option maxHeartbeats 1000000

namespace SlackGen

mutual
/-- Modelled from the spec: the recursive property-shape tree `PropType` of the
external `json_schema` crate (§3 of the spec: primitive scalar, Object, Enum,
Array-of, Map-of, Optional-of).  The constructor names follow the usage sites in
`generator.rs` (`PropType::Obj`, `PropType::Enum`, `PropType::Arr`,
`PropType::Map`, `PropType::Optional`). -/
inductive PropType where
  | Str : PropType
  | Int : PropType
  | Boolean : PropType
  | Obj : JsonObject → PropType
  | Enum : JsonEnum → PropType
  | Arr : PropType → PropType
  | Map : PropType → PropType
  | Optional : PropType → PropType

inductive JsonObject where
  | mk : String → List JsonObjectFieldInfo → JsonObject

inductive JsonObjectFieldInfo where
  | mk : String → Option String → PropType → JsonObjectFieldInfo

inductive JsonEnum where
  | mk : String → List JsonEnumVariant → JsonEnum

inductive JsonEnumVariant where
  | mk : String → String → PropType → JsonEnumVariant
end

/-- Modelled from the spec: a `JsonObject` is "a `name` and an ordered list of
named, typed fields". -/
def JsonObject.name : JsonObject → String
  | .mk n _ => n

def JsonObject.fields : JsonObject → List JsonObjectFieldInfo
  | .mk _ fs => fs

/-- Modelled from the spec: a field has an in-memory identifier, an optional
wire rename, and a property type. -/
def JsonObjectFieldInfo.name : JsonObjectFieldInfo → String
  | .mk n _ _ => n

def JsonObjectFieldInfo.rename : JsonObjectFieldInfo → Option String
  | .mk _ r _ => r

def JsonObjectFieldInfo.ty : JsonObjectFieldInfo → PropType
  | .mk _ _ t => t

/-- Modelled from the spec: a `JsonEnum` is "a `name` and an ordered list of
variants". -/
def JsonEnum.name : JsonEnum → String
  | .mk n _ => n

def JsonEnum.variants : JsonEnum → List JsonEnumVariant
  | .mk _ vs => vs

/-- Modelled from the spec: a variant pairs a declared name, a
generated-identifier ("qualified name"), and an inner `PropType`. -/
def JsonEnumVariant.name : JsonEnumVariant → String
  | .mk n _ _ => n

def JsonEnumVariant.qualified_name : JsonEnumVariant → String
  | .mk _ q _ => q

def JsonEnumVariant.inner : JsonEnumVariant → PropType
  | .mk _ _ i => i

/-- `impl Okable for JsonObject` (generator.rs:127-131):
`self.fields.iter().find(|f| f.name == "ok").is_some()`. -/
def JsonObject.has_ok (o : JsonObject) : Bool :=
  (o.fields.find? (fun f => f.name == "ok")).isSome

mutual
/-- `impl Okable for JsonEnum` (generator.rs:133-141): all variants' inner
shapes recursively have-ok. -/
def JsonEnum.has_ok : JsonEnum → Bool
  | .mk _ vs => variantsHaveOk vs

/-- Helper: the `all` fold over the variant list of `JsonEnum::has_ok`. -/
def variantsHaveOk : List JsonEnumVariant → Bool
  | [] => true
  | v :: vs => variantHasOk v && variantsHaveOk vs

/-- Helper: the per-variant body of `JsonEnum::has_ok`'s closure: the inner
shape is an Object with an `ok` field, or an Enum recursively having ok,
otherwise `false`. -/
def variantHasOk : JsonEnumVariant → Bool
  | .mk _ _ (PropType.Obj o) => o.has_ok
  | .mk _ _ (PropType.Enum e) => JsonEnum.has_ok e
  | .mk _ _ _ => false
end

/-- Helper for `toSnakeCase`: lower-cases characters, inserting an underscore
before an interior upper-case character. -/
def snakeChars : Bool → List Char → List Char
  | _, [] => []
  | first, c :: cs =>
    if c.isUpper then
      (if first then [c.toLower] else ['_', c.toLower]) ++ snakeChars false cs
    else c :: snakeChars false cs

/-- Modelled from the spec: the external naming-convention transform facility
(§6: "a naming-convention transform facility (snake/camel case conversions)");
the source uses `Inflector::to_snake_case`, which is an external crate. -/
def toSnakeCase (s : String) : String :=
  String.mk (snakeChars true s.toList)

/-- Helper: split a character list at every occurrence of a separator
character; always yields at least one (possibly empty) segment, like Rust's
`str::split`. -/
def splitSegs (sep : Char) : List Char → List (List Char)
  | [] => [[]]
  | c :: cs =>
    let rest := splitSegs sep cs
    if c == sep then [] :: rest
    else
      match rest with
      | r :: rs => (c :: r) :: rs
      | [] => [[c]]

/-- Helper: upper-case the first character of a segment. -/
def capitalizeChars : List Char → List Char
  | [] => []
  | c :: cs => c.toUpper :: cs

/-- Modelled from the spec: the external naming-convention transform facility;
the source uses `Inflector::to_pascal_case`, which is an external crate.
Splits on underscores and upper-cases each segment's first character. -/
def toPascalCase (s : String) : String :=
  String.mk (((splitSegs '_' s.toList).map capitalizeChars).flatten)

/-- `ApiError` (generator.rs:570-574): a declared wire-level error code and its
description. -/
structure ApiError where
  name : String
  description : String

/-- `Param` (generator.rs:340-347). -/
structure Param where
  name : String
  description : String
  ty : String
  optional : Bool

/-- `Response` (generator.rs:212-217).  The source stores the raw `JsonSchema`
of the external `json_schema` crate and resolves it with
`PropType::from_schema`; the spec's §3 describes the schema as "a property-type
tree", so the model stores the resolved `PropType` directly and
`from_schema` is the identity. -/
structure Response where
  sample : String
  schema : PropType
  errors : List ApiError

/-- `Method` (generator.rs:38-46). -/
structure Method where
  name : String
  description : String
  documentation_url : String
  params : List Param
  response : Response

/-- `Module` (generator.rs:5-10). -/
structure Module where
  name : String
  description : Option String
  methods : List Method

/-! ## Runtime semantics of the generated `to_result` facade

`get_obj_to_response_impl` (generator.rs:159-179) emits, for each Object with
an `ok` field, the template

```
if self.ok { Ok(self.clone()) } else {
  Err(self.error.as_ref().map(|s| s[..].into()).unwrap_or(ERR::MalformedResponse)) }
```

and `Response::get_error_enum` (generator.rs:250-337) emits, per method, an
error enum with one variant per declared `ApiError`, plus `MalformedResponse`,
`Unknown(String)` and `Client(ClientError)`, together with a `From<&str>`
classifier matching each declared wire code string exactly.  We embed the
runtime behaviour of those templates. -/

/-- Runtime value of a generated response Object that carries the `ok` field
and the optional `error` code field; `rest` abstracts all other fields. -/
structure ObjValue (ρ : Type) where
  ok : Bool
  error : Option String
  rest : ρ
deriving DecidableEq

/-- Runtime value of the generated per-method error enum: one variant per
declared wire code (identified here by that wire code, as in the generated
`From<&str>` match arms), plus the three fixed fallback variants. -/
inductive ApiErrorValue where
  | declared : String → ApiErrorValue
  | malformedResponse : ApiErrorValue
  | unknown : String → ApiErrorValue
  | client : ApiErrorValue
deriving DecidableEq

/-- Semantics of the generated `impl From<&str>` classifier
(generator.rs:269-276): the match arms test the raw string against each
declared error's wire name, in declaration order, exactly and case-sensitively;
the fallback arm is `Unknown(s)`. -/
def classifyError (errors : List ApiError) (s : String) : ApiErrorValue :=
  match errors.find? (fun e => e.name == s) with
  | some e => ApiErrorValue.declared e.name
  | none => ApiErrorValue.unknown s

/-- Semantics of the generated Object `to_result` template
(generator.rs:162-172): `Ok(self.clone())` when `ok`, else the `error` string
run through the classifier, or `MalformedResponse` when `error` is absent. -/
def ObjValue.to_result {ρ : Type} (errors : List ApiError) (o : ObjValue ρ) :
    Except ApiErrorValue (ObjValue ρ) :=
  if o.ok then Except.ok o
  else Except.error ((o.error.map (classifyError errors)).getD
    ApiErrorValue.malformedResponse)

/-- Runtime value of a generated has-ok response type: either an Object value,
or an enum variant (identified by its tag) wrapping a nested has-ok value. -/
inductive OkValue (ρ : Type) where
  | obj : ObjValue ρ → OkValue ρ
  | variant : String → OkValue ρ → OkValue ρ
deriving DecidableEq

/-- Semantics of the generated Enum `to_result` template
(generator.rs:184-205 with the match arms built by `generate_matches`,
generator.rs:143-157): each arm is
`&V(ref inner) => inner.to_result().clone().map(|r| V(r)),`. -/
def OkValue.to_result {ρ : Type} (errors : List ApiError) :
    OkValue ρ → Except ApiErrorValue (OkValue ρ)
  | .obj o => (ObjValue.to_result errors o).map OkValue.obj
  | .variant tag inner => (OkValue.to_result errors inner).map (OkValue.variant tag)

/-! ## Runtime semantics of the generated Enum deserialization routine

`JsonEnum::to_code` (generator.rs:453-528) emits a `Deserialize` impl that
parses the payload into a generic JSON value, reads the discriminator field
(`"subtype"` when the enum is named `"Message"`, else `"type"`), and
dispatches on its string value against the snake-cased variant names. -/

/-- A generic JSON value tree (the external `serde_json::Value`, specified in
§6 as "a generic JSON value/parse facility"). -/
inductive Json where
  | null : Json
  | bool : Bool → Json
  | num : Int → Json
  | str : String → Json
  | arr : List Json → Json
  | obj : List (String × Json) → Json

/-- `serde_json::Value::get(key)` on an object: the value at the first binding
of `key`, if any; `None` on non-objects. -/
def Json.get (j : Json) (key : String) : Option Json :=
  match j with
  | .obj kvs => (kvs.find? (fun kv => kv.1 == key)).map (fun kv => kv.2)
  | _ => none

/-- `serde_json::Value::as_str`. -/
def Json.as_str : Json → Option String
  | .str s => some s
  | _ => none

/-- The failure conditions of the generated `deserialize` routine
(`D::Error::missing_field`, `D::Error::invalid_type`,
`D::Error::unknown_variant`, `D::Error::custom`). -/
inductive DeError where
  | missingField : String → DeError
  | invalidType : DeError
  | unknownVariant : String → List String → DeError
  | custom : String → DeError
deriving DecidableEq

/-- The discriminator field read by the generated routine
(generator.rs:455-460): `"subtype"` for the enum named `"Message"`
("Hack to work around message having a different identifier here"),
else `"type"`. -/
def JsonEnum.variant_field (e : JsonEnum) : String :=
  if e.name == "Message" then "subtype" else "type"

/-- Semantics of the generated `Deserialize` impl (generator.rs:475-496):
read the discriminator field; if absent, fail with
`D::Error::missing_field("type")` — note the hardcoded `"type"` at
generator.rs:494, not the `variant_field` actually looked up; if present but
not a string, fail with an invalid-type condition; otherwise dispatch on the
string against the snake-cased variant names in declaration order, re-parsing
the full payload as the matched variant's inner type (`from_value` abstracts
the external `serde_json::from_value::<T>`; its failure message is surfaced
through `D::Error::custom`); an unmatched tag fails with
`D::Error::unknown_variant(ty, VARIANTS)` where `VARIANTS` lists every
snake-cased variant name. -/
def JsonEnum.deserialize {α : Type} (e : JsonEnum)
    (from_value : JsonEnumVariant → Json → Except String α)
    (value : Json) : Except DeError (String × α) :=
  match value.get e.variant_field with
  | some ty_val =>
    match ty_val.as_str with
    | some ty =>
      match e.variants.find? (fun v => toSnakeCase v.name == ty) with
      | some v =>
        match from_value v value with
        | .ok o => Except.ok (v.qualified_name, o)
        | .error msg => Except.error (DeError.custom msg)
      | none => Except.error (DeError.unknownVariant ty
          (e.variants.map (fun v => toSnakeCase v.name)))
    | none => Except.error DeError.invalidType
  | none => Except.error (DeError.missingField "type")

/-! ## Runtime semantics of the generated parameter-map insertions

`Param::get_insertion` (generator.rs:359-405) emits, per parameter, one
insertion statement dispatched on `(type tag, optional)`; the request field's
Rust type is determined by `Param::get_rust_type` (generator.rs:407-418). -/

/-- Runtime value of a generated request-struct field, shaped per
`Param::get_rust_type`: `bool` / `u32` / `String`, optionally wrapped in
`Option`. -/
inductive FieldValue where
  | reqBool : Bool → FieldValue
  | optBool : Option Bool → FieldValue
  | reqInt : Nat → FieldValue
  | optInt : Option Nat → FieldValue
  | reqStr : String → FieldValue
  | optStr : Option String → FieldValue
deriving DecidableEq

/-- Semantics of the emitted insertion statement (generator.rs:359-405): the
key-value pair inserted into the parameter map, or `none` when the statement
inserts nothing.  The outer dispatch mirrors the source's match on
`(&self.ty[..], self.optional)`; the inner matches express that the request
field has the shape `get_rust_type` gives it (a mismatched shape cannot occur
in the generated code and yields `none` here). -/
def Param.inserted (p : Param) (v : FieldValue) : Option (String × String) :=
  if p.ty == "boolean" then
    if p.optional then
      match v with
      | .optBool (some b) => some (p.name, if b then "1" else "0")
      | _ => none
    else
      match v with
      | .reqBool b => some (p.name, if b then "1" else "0")
      | _ => none
  else if p.ty == "integer" then
    if p.optional then
      match v with
      | .optInt (some n) => some (p.name, toString n)
      | _ => none
    else
      match v with
      | .reqInt n => some (p.name, toString n)
      | _ => none
  else
    if p.optional then
      match v with
      | .optStr (some s) => some (p.name, s)
      | _ => none
    else
      match v with
      | .reqStr s => some (p.name, s)
      | _ => none

/-! ## The text-generation functions of `generator.rs`

Rust `panic!`/`expect` calls are modelled as `Except.error` carrying the panic
message; every brace of the emitted Rust templates is written `\x7b`/`\x7d`. -/

/-- Modelled from the spec: `PropType::to_rs_type` of the external
`json_schema` crate (§4.1: primitive scalars map to fixed target-language
equivalents; nested Objects/Enums are referred to by name; Array, Map and
Optional shapes wrap the element type). -/
def PropType.to_rs_type : PropType → String
  | .Str => "String"
  | .Int => "i32"
  | .Boolean => "bool"
  | .Obj o => o.name
  | .Enum e => e.name
  | .Arr p => "Vec<" ++ p.to_rs_type ++ ">"
  | .Map p => "HashMap<String, " ++ p.to_rs_type ++ ">"
  | .Optional p => "Option<" ++ p.to_rs_type ++ ">"

/-- `format_docs` (generator.rs:576-578): prefixes each line of `s` with
`pre` and a space, terminating each line with a newline (`str::lines` is
modelled as newline-splitting). -/
def format_docs (pre s : String) : String :=
  String.join ((splitSegs '\n' s.toList).map (fun l =>
    pre ++ " " ++ String.mk l ++ "\n"))

/-- The attribute/visibility marker computed by
`impl ToString for JsonObjectFieldInfo` (generator.rs:423-428): the field
named `ok` gets `#[serde(default)]`; a field named neither `error` nor `ok`
gets `pub`; the field named `error` gets nothing. -/
def fieldMarker (name : String) : String :=
  if name == "ok" then "#[serde(default)]"
  else if name != "error" && name != "ok" then "pub"
  else ""

/-- `impl ToString for JsonObjectFieldInfo` (generator.rs:421-441). -/
def JsonObjectFieldInfo.to_string (f : JsonObjectFieldInfo) : String :=
  match f.rename with
  | some rn =>
    "#[serde(rename = \"" ++ rn ++ "\")]\n" ++ fieldMarker f.name ++ " " ++
      f.name ++ ": " ++ f.ty.to_rs_type ++ ","
  | none => fieldMarker f.name ++ " " ++ f.name ++ ": " ++ f.ty.to_rs_type ++ ","

/-- `impl ToString for JsonEnumVariant` (generator.rs:443-451). -/
def JsonEnumVariant.to_string (v : JsonEnumVariant) : String :=
  v.name ++ "(" ++ v.inner.to_rs_type ++ "),"

/-- Lexicographic comparison of character lists; for UTF-8 strings this order
agrees with the byte-wise `Ord` a Rust `String` sort key uses. -/
def charListLe : List Char → List Char → Bool
  | [], _ => true
  | _ :: _, [] => false
  | a :: as, b :: bs =>
    if a < b then true
    else if b < a then false
    else charListLe as bs

/-- The sorting relation of `fields.sort_by_key(|f| f.name.clone())`
(generator.rs:550): fields compared lexicographically by name. -/
def fieldLe (a b : JsonObjectFieldInfo) : Prop :=
  charListLe a.name.toList b.name.toList = true

instance : DecidableRel fieldLe :=
  fun a b => inferInstanceAs (Decidable (charListLe a.name.toList b.name.toList = true))

/-- `fields.sort_by_key(|f| f.name.clone())` (generator.rs:549-550): a stable
name-keyed sort of the field list. -/
def sortFieldsByName (fs : List JsonObjectFieldInfo) : List JsonObjectFieldInfo :=
  List.insertionSort fieldLe fs

/-- The field declarations emitted by `impl ToString for JsonObject`
(generator.rs:549-554): the name-sorted fields, each rendered by
`JsonObjectFieldInfo::to_string`. -/
def JsonObject.renderedFields (o : JsonObject) : List String :=
  (sortFieldsByName o.fields).map JsonObjectFieldInfo.to_string

/-- One `variant_matches` arm of the generated `Deserialize` impl
(generator.rs:511-524). -/
def variantMatchArm (v : JsonEnumVariant) : String :=
  "\"" ++ toSnakeCase v.name ++ "\" => \x7b\n::serde_json::from_value::<" ++
    v.inner.to_rs_type ++ ">(value.clone()).map(|obj| \x7b\n" ++
    v.qualified_name ++
    "(obj)\n\x7d).map_err(|e| D::Error::custom(&format!(\"\x7b\x7d\", e)))\n\x7d"

/-- The body of the generated `Deserialize` impl (generator.rs:476-496).
The missing-field arm emits the hardcoded string `"type"`
(generator.rs:494) even when the discriminator looked up is `subtype`. -/
def deserializeImplBody (e : JsonEnum) : String :=
  "fn deserialize<D>(deserializer: D) -> Result<Self, D::Error>\nwhere D: ::serde::Deserializer\n\x7b\n" ++
  "use ::serde::de::Error as SerdeError;\n\nconst VARIANTS: &\x27static [&\x27static str] = &[" ++
  String.intercalate "," (e.variants.map (fun v => "\"" ++ toSnakeCase v.name ++ "\"")) ++
  "];\n\nlet value = ::serde_json::Value::deserialize(deserializer)?;\n" ++
  "if let Some(ty_val) = value.get(\"" ++ e.variant_field ++ "\") \x7b\n" ++
  "if let Some(ty) = ty_val.as_str() \x7b\nmatch ty \x7b\n" ++
  String.intercalate "\n" (e.variants.map variantMatchArm) ++
  "\n_ => Err(D::Error::unknown_variant(ty, VARIANTS))\n\x7d\n\x7d else \x7b\n" ++
  "Err(D::Error::invalid_type(::serde::de::Unexpected::Unit, &\"a string\"))\n\x7d\n\x7d else \x7b\n" ++
  "Err(D::Error::missing_field(\"type\"))\n\x7d\n\x7d"

mutual
/-- `impl ToString for JsonObject` (generator.rs:542-568): the struct
declaration over the name-sorted fields, followed by the nested sub-objects
collected by `obj_recur` over the fields in declared order. -/
def JsonObject.to_string : JsonObject → String
  | .mk n fs =>
    "#[derive(Clone, Debug, Deserialize)]\npub struct " ++ n ++ " \x7b\n" ++
      String.intercalate "\n" (JsonObject.renderedFields (JsonObject.mk n fs)) ++
      "\n\x7d\n\n" ++
      String.intercalate "\n" (objRecurFields fs)

/-- `JsonEnum::to_code` (generator.rs:453-528): the enum declaration, the
generated `Deserialize` impl, and the nested sub-objects of every variant. -/
def JsonEnum.to_code : JsonEnum → String
  | .mk n vs =>
    "\n#[derive(Clone, Debug)]\npub enum " ++ n ++ " \x7b\n" ++
      String.intercalate "\n" (vs.map JsonEnumVariant.to_string) ++
      "\n\x7d\n\nimpl ::serde::Deserialize for " ++ n ++ " \x7b\n" ++
      deserializeImplBody (JsonEnum.mk n vs) ++ "\n\x7d\n\n" ++
      String.intercalate "\n" (objRecurVariants vs)

/-- `obj_recur` (generator.rs:531-540). -/
def obj_recur : PropType → List String
  | PropType.Obj o => [o.to_string]
  | PropType.Arr p => obj_recur p
  | PropType.Map p => obj_recur p
  | PropType.Optional p => obj_recur p
  | PropType.Enum e => [e.to_code]
  | _ => []

/-- Helper: `flat_map(|f| obj_recur(&f.ty))` over an object's fields. -/
def objRecurFields : List JsonObjectFieldInfo → List String
  | [] => []
  | JsonObjectFieldInfo.mk _ _ t :: fs => obj_recur t ++ objRecurFields fs

/-- Helper: `flat_map(|v| obj_recur(&v.inner))` over an enum's variants. -/
def objRecurVariants : List JsonEnumVariant → List String
  | [] => []
  | JsonEnumVariant.mk _ _ i :: vs => obj_recur i ++ objRecurVariants vs
end

/-- `generate_matches` (generator.rs:143-157). -/
def generate_matches (enm : JsonEnum) (var_name : String)
    (f : JsonEnumVariant → String) : List String :=
  enm.variants.map (fun v =>
    "&" ++ v.qualified_name ++ "(ref " ++ var_name ++ ") => " ++ f v ++ ",")

/-- `get_obj_to_response_impl` (generator.rs:159-179): `Some` of the
`ToResult` impl when the object has an `ok` field, else `None`. -/
def get_obj_to_response_impl (obj : JsonObject) (error_type : String) :
    Option String :=
  if obj.has_ok then
    some ("impl ToResult<" ++ obj.name ++ ", " ++ error_type ++ "> for " ++
      obj.name ++ " \x7b\nfn to_result(&self) -> Result<" ++ obj.name ++ ", " ++
      error_type ++ "> \x7b\nif self.ok \x7b\nOk(self.clone())\n\x7d else \x7b\n" ++
      "Err(self.error.as_ref()\n.map(|s| s[..].into())\n.unwrap_or(" ++
      error_type ++ "::MalformedResponse))\n\x7d\n\x7d\n\x7d")
  else
    none

mutual
/-- `get_enum_to_response_impl` (generator.rs:181-210): `Some` of the
`ToResult` impl (matching on the variant, delegating to the inner payload's
`to_result`, plus the inner impls) when the enum has-ok, else `None`; the
`expect`/`panic!` calls on the inner variants are modelled as
`Except.error`. -/
def get_enum_to_response_impl : JsonEnum → String → Except String (Option String)
  | JsonEnum.mk n vars, error_type =>
    if JsonEnum.has_ok (JsonEnum.mk n vars) then
      match enumInnerImpls vars error_type with
      | Except.error msg => Except.error msg
      | Except.ok impls =>
        Except.ok (some ("impl ToResult<" ++ n ++ ", " ++ error_type ++
          "> for " ++ n ++ " \x7b\nfn to_result(&self) -> Result<" ++
          n ++ ", " ++ error_type ++ "> \x7b\nmatch self \x7b\n" ++
          String.intercalate "\n" (generate_matches (JsonEnum.mk n vars) "inner"
            (fun v =>
              "inner.to_result().clone().map(|r| " ++ v.qualified_name ++ "(r))")) ++
          "\n\x7d\n\x7d\n\x7d\n\n" ++ String.intercalate "\n" impls))
    else Except.ok none

/-- Helper: the `inner_impls` fold of `get_enum_to_response_impl`
(generator.rs:198-205), with each `expect`/`panic!` modelled as
`Except.error` of the literal panic message. -/
def enumInnerImpls : List JsonEnumVariant → String → Except String (List String)
  | [], _ => Except.ok []
  | JsonEnumVariant.mk _ _ inner :: vs, error_type =>
    match inner with
    | PropType.Obj o =>
      match get_obj_to_response_impl o error_type with
      | some s =>
        match enumInnerImpls vs error_type with
        | Except.ok rest => Except.ok (s :: rest)
        | Except.error m => Except.error m
      | none => Except.error "Top-level enum inner object did not have \"ok\" field."
    | PropType.Enum e =>
      match get_enum_to_response_impl e error_type with
      | Except.ok (some s) =>
        match enumInnerImpls vs error_type with
        | Except.ok rest => Except.ok (s :: rest)
        | Except.error m => Except.error m
      | Except.ok none => Except.error "Top-level enum inner variant did not have \"ok\" field."
      | Except.error m => Except.error m
    | _ => Except.error "Top-level enum is does not contain a type that can have an \"ok\" field."
end

/-- Modelled from the spec: the `panic!` at generator.rs:231-233 appends the
`Debug` rendering of the raw schema value of the external `json_schema` crate;
that crate is not part of the repository sources, so the rendering is modelled
as a constructor-level view of the resolved property tree. -/
def PropType.debugString : PropType → String
  | .Str => "Str"
  | .Int => "Int"
  | .Boolean => "Boolean"
  | .Obj o => "Obj(" ++ o.name ++ ")"
  | .Enum e => "Enum(" ++ e.name ++ ")"
  | .Arr p => "Arr(" ++ p.debugString ++ ")"
  | .Map p => "Map(" ++ p.debugString ++ ")"
  | .Optional p => "Optional(" ++ p.debugString ++ ")"

/-- `Response::get_error_enum` (generator.rs:250-337): the per-method error
enum with one variant per declared error plus the three fixed fallbacks, the
`From<ClientError>` impl, the `From<&str>` classifier, the `Display` impl and
the `Error` impl. -/
def Response.get_error_enum (r : Response) (error_ty : String) : String :=
  let variants := String.intercalate "\n" (r.errors.map (fun e =>
    format_docs "///" e.description ++ "\n" ++ toPascalCase e.name ++ ","))
  let match_arms := String.intercalate "\n" (r.errors.map (fun e =>
    "\"" ++ e.name ++ "\" => " ++ error_ty ++ "::" ++ toPascalCase e.name ++ ","))
  let description_matches := String.intercalate "\n" (r.errors.map (fun e =>
    "&" ++ error_ty ++ "::" ++ toPascalCase e.name ++ " => \"" ++ e.name ++ "\","))
  "#[derive(Clone, Debug)]\npub enum " ++ error_ty ++ " \x7b\n" ++ variants ++
  "\n/// The response was not \"ok\" but provided no error\nMalformedResponse,\n" ++
  "/// The response returned an error that was unknown to the library\nUnknown(String),\n" ++
  "/// The client had an error sending the request to Slack\nClient(ClientError)\n\x7d\n\n" ++
  "impl From<ClientError> for " ++ error_ty ++ " \x7b\nfn from(err: ClientError) -> Self \x7b\n" ++
  error_ty ++ "::Client(err)\n\x7d\n\x7d\n\n" ++
  "impl<\x27a> From<&\x27a str> for " ++ error_ty ++ " \x7b\nfn from(s: &\x27a str) -> Self \x7b\nmatch s \x7b\n" ++
  match_arms ++ "\n_ => " ++ error_ty ++ "::Unknown(s.to_owned())\n\x7d\n\x7d\n\x7d\n\n" ++
  "impl fmt::Display for " ++ error_ty ++ " \x7b\nfn fmt(&self, f: &mut fmt::Formatter) -> fmt::Result \x7b\n" ++
  "write!(f, \"\x7b\x7d\", self.description())\n\x7d\n\x7d\n\n" ++
  "impl Error for " ++ error_ty ++ " \x7b\nfn description(&self) -> &str \x7b\nmatch self \x7b\n" ++
  description_matches ++
  "\n&" ++ error_ty ++ "::MalformedResponse => \"Malformed response data from Slack.\",\n" ++
  "&" ++ error_ty ++ "::Unknown(ref s) => s,\n" ++
  "&" ++ error_ty ++ "::Client(ref inner) => inner.description()\n\x7d\n\x7d\n\n" ++
  "fn cause(&self) -> Option<&Error> \x7b\nmatch self \x7b\n" ++
  "&" ++ error_ty ++ "::Client(ref inner) => Some(inner),\n_ => None\n\x7d\n\x7d\n\x7d"

/-- `Response::generate` (generator.rs:219-244): renders the response type and
its `to_result` facade; the `panic!` for a top-level shape that is neither
Object nor Enum is modelled as `Except.error` of the panic message (which
names `ty_name`). -/
def Response.generate (r : Response) (ty_name error_ty : String) :
    Except String String :=
  let rendered : Except String (String × Option String) :=
    match r.schema with
    | PropType.Obj o => Except.ok (o.to_string, get_obj_to_response_impl o error_ty)
    | PropType.Enum e =>
      match get_enum_to_response_impl e error_ty with
      | Except.ok tr => Except.ok (e.to_code, tr)
      | Except.error m => Except.error m
    | _ => Except.error ("Top level response schema for " ++ ty_name ++
        " is not an object or enum. " ++ r.schema.debugString)
  match rendered with
  | Except.error m => Except.error m
  | Except.ok (objs, to_result) =>
    Except.ok (objs ++ "\n" ++ to_result.getD "" ++ "\n" ++
      r.get_error_enum error_ty)

/-- `Response::get_response_type` (generator.rs:246-248); `PropType::from_schema`
is the identity in this model (the schema is stored resolved). -/
def Response.get_response_type (r : Response) (_ty_name : String) : PropType :=
  r.schema

/-- `Param::get_rust_type` (generator.rs:407-418). -/
def Param.get_rust_type (p : Param) : String :=
  let ty := if p.ty == "boolean" then "bool"
    else if p.ty == "integer" then "u32"
    else "String"
  if p.optional then "Option<" ++ ty ++ ">" else ty

/-- `Param::generate` (generator.rs:350-357). -/
def Param.generate (p : Param) : String :=
  format_docs "///" p.description ++ "\npub " ++ p.name ++ ": " ++
    p.get_rust_type ++ ","

/-- `Param::get_insertion` (generator.rs:359-405): the emitted insertion
statement, dispatched on `(&self.ty[..], self.optional)`. -/
def Param.get_insertion (p : Param) : String :=
  if p.ty == "boolean" then
    if p.optional then
      "if let Some(" ++ p.name ++ ") = request." ++ p.name ++
        " \x7b\nparams.insert(\"" ++ p.name ++ "\", if " ++ p.name ++
        " \x7b \"1\".to_owned() \x7d else \x7b \"0\".to_owned() \x7d);\n\x7d"
    else
      "params.insert(\"" ++ p.name ++ "\", if request." ++ p.name ++
        " \x7b \"1\".to_owned() \x7d else \x7b \"0\".to_owned() \x7d);"
  else if p.ty == "integer" then
    if p.optional then
      "\nif let Some(" ++ p.name ++ ") = request." ++ p.name ++
        ".map(|n| n.to_string()) \x7b\nparams.insert(\"" ++ p.name ++ "\", " ++
        p.name ++ ");\n\x7d"
    else
      "params.insert(\"" ++ p.name ++ "\", request." ++ p.name ++ ".to_string());"
  else
    if p.optional then
      "if let Some(ref " ++ p.name ++ ") = request." ++ p.name ++
        " \x7b\nparams.insert(\"" ++ p.name ++ "\", " ++ p.name ++ ".to_owned());\n\x7d"
    else
      "params.insert(\"" ++ p.name ++ "\", request." ++ p.name ++ ".clone());"

/-- `Method::get_request_struct` (generator.rs:111-120). -/
def Method.get_request_struct (m : Method) (ty_name : String) : String :=
  "#[derive(Clone, Default, Debug)]\npub struct " ++ ty_name ++ " \x7b\n" ++
  String.intercalate "\n" (m.params.map Param.generate) ++ "\n\x7d"

/-- The `self.name.split(.).last().unwrap()` of generator.rs:50-51; `split`
always yields at least one segment, so the `unwrap` cannot fail. -/
def lastSegment (s : String) : String :=
  String.mk ((splitSegs '.' s.toList).getLastD [])

/-- The `base_call` template (generator.rs:59-68). -/
def base_call_text (name response_type error_type : String) : String :=
  "client.send(\"" ++ name ++ "\", params)\n.map_err(|err| err.into())\n.and_then(|result| \x7b\n" ++
  "serde_json::from_str::<" ++ response_type ++ ">(&result)\n.map_err(|_| " ++
  error_type ++ "::MalformedResponse)\n\x7d)"

/-- The `send_call` block of `Method::generate` (generator.rs:58-77): appends
`.and_then(|o| o.to_result())` to the base call exactly when the top-level
response shape is an Object or Enum satisfying has-ok; the `panic!` for any
other shape is modelled as `Except.error` of the panic message (which names
`fn_name`). -/
def send_call_for (m_name fn_name response_struct_name error_enum_name : String)
    (ty : PropType) : Except String String :=
  let base := base_call_text m_name response_struct_name error_enum_name
  match ty with
  | PropType.Obj o =>
    Except.ok (if o.has_ok then base ++ ".and_then(|o| o.to_result())" else base)
  | PropType.Enum e =>
    Except.ok (if e.has_ok then base ++ ".and_then(|o| o.to_result())" else base)
  | _ => Except.error ("Top-level response for " ++ fn_name ++
      " is not an object or enum.")

/-- `Method::generate` (generator.rs:48-109); the `Response::generate` call of
line 55 runs before the `send_call` match of lines 70-74, so its panic fires
first. -/
def Method.generate (m : Method) : Except String String :=
  let fn_name := toSnakeCase (lastSegment m.name)
  let type_pre := toPascalCase (lastSegment m.name)
  let request_struct_name := type_pre ++ "Request"
  let response_struct_name := type_pre ++ "Response"
  let error_enum_name := type_pre ++ "Error"
  match m.response.generate response_struct_name error_enum_name with
  | Except.error msg => Except.error msg
  | Except.ok response =>
    let response_type := m.response.get_response_type response_struct_name
    match send_call_for m.name fn_name response_struct_name error_enum_name
        response_type with
    | Except.error msg => Except.error msg
    | Except.ok send_call =>
      Except.ok (
        format_docs "///" (m.description ++ "\n\nWraps " ++ m.documentation_url) ++
        "\npub fn " ++ fn_name ++ "<R>(client: &R,\nrequest: &" ++
        request_struct_name ++ ")\n-> Result<" ++ response_struct_name ++ ", " ++
        error_enum_name ++ ">\nwhere R: SlackWebRequestSender\n\x7b\n" ++
        "let mut params = HashMap::new();\n" ++
        String.intercalate "\n" (m.params.map Param.get_insertion) ++ "\n" ++
        send_call ++ "\n\x7d\n\n" ++
        m.get_request_struct request_struct_name ++ "\n\n" ++
        response ++ "\n")

/-- Helper: `self.methods.iter().map(Method::generate).collect()`
(generator.rs:25-29), with a panic in any method aborting the whole run. -/
def generateMethods : List Method → Except String (List String)
  | [] => Except.ok []
  | m :: ms =>
    match m.generate with
    | Except.error e => Except.error e
    | Except.ok s =>
      match generateMethods ms with
      | Except.error e => Except.error e
      | Except.ok rest => Except.ok (s :: rest)

/-- `Module::generate` (generator.rs:13-31). -/
def Module.generate (m : Module) : Except String String :=
  match generateMethods m.methods with
  | Except.error e => Except.error e
  | Except.ok texts =>
    Except.ok ("use std::collections::HashMap;\nuse std::convert::From;\n" ++
      "use std::error::Error;\nuse std::fmt;\n\nuse serde_json;\n\n" ++
      "use ::\x7bClientError, SlackWebRequestSender, ToResult\x7d;\n\n" ++
      String.intercalate "\n" texts)

/-- `Module::get_safe_name` (generator.rs:33-35). -/
def Module.get_safe_name (m : Module) : String :=
  m.name.replace "." "_"

/-! ## Concrete schema instances used by witnesses and counterexamples -/

/-- A declared error list with one wire code. -/
def exErrors : List ApiError := [⟨"not_authed", "No authentication token provided."⟩]

/-- A failed response object carrying the declared wire code. -/
def exObjErr : ObjValue Unit := ⟨false, some "not_authed", ()⟩

/-- A variant whose declared name snake-cases to `foo_bar`. -/
def exFooBarVariant : JsonEnumVariant :=
  JsonEnumVariant.mk "FooBar" "Event::FooBar"
    (PropType.Obj (JsonObject.mk "EventFooBar"
      [JsonObjectFieldInfo.mk "ok" none PropType.Boolean]))

/-- A discriminated enum (not named `Message`, so its discriminator is
`type`). -/
def exEventEnum : JsonEnum := JsonEnum.mk "Event" [exFooBarVariant]

/-- A payload whose `type` discriminator is `foo_bar`. -/
def exPayload : Json :=
  Json.obj [("type", Json.str "foo_bar"), ("x", Json.num 1)]

/-- A trivial stand-in for `serde_json::from_value` that always succeeds. -/
def exParseInner : JsonEnumVariant → Json → Except String Nat :=
  fun _ _ => Except.ok 7

/-- An enum one of whose variants' inner shape (a bare string) lacks `ok`,
so the enum does not satisfy has-ok. -/
def badOkEnum : JsonEnum :=
  JsonEnum.mk "FooResponse" [JsonEnumVariant.mk "Plain" "FooResponse::Plain" PropType.Str]

/-- A method whose top-level response shape is `badOkEnum`. -/
def mBadEnum : Method := ⟨"chat.foo", "d", "u", [], ⟨"", PropType.Enum badOkEnum, []⟩⟩

/-- A method whose top-level response shape is a bare string. -/
def mStr : Method := ⟨"chat.bar", "d", "u", [], ⟨"", PropType.Str, []⟩⟩

/-- A successful inner object value wrapped in an enum variant. -/
def exOkVariantVal : OkValue Unit :=
  OkValue.variant "MessageResponse::Standard" (OkValue.obj ⟨true, none, ()⟩)

/-- A required boolean parameter. -/
def exBoolParam : Param :=
  ⟨"as_user", "Pass true to post the message as the authed user.", "boolean", false⟩

/-- An object whose fields are declared out of name order and include `ok`. -/
def exObj : JsonObject :=
  JsonObject.mk "BazResponse"
    [JsonObjectFieldInfo.mk "ts" none PropType.Str,
     JsonObjectFieldInfo.mk "ok" none PropType.Boolean,
     JsonObjectFieldInfo.mk "channel" none PropType.Str]

/-- A well-formed method over `exObj` with an `error` field added. -/
def mOkObj : Method :=
  ⟨"chat.baz", "d", "u", [exBoolParam],
    ⟨"", PropType.Obj (JsonObject.mk "BazResponse"
      [JsonObjectFieldInfo.mk "ok" none PropType.Boolean,
       JsonObjectFieldInfo.mk "error" none (PropType.Optional PropType.Str)]),
     exErrors⟩⟩

/-- A module holding one well-formed method. -/
def exModule : Module := ⟨"chat", none, [mOkObj]⟩

/-- An enum named `Message`: its discriminator field is `subtype`. -/
def exMessageEnum : JsonEnum :=
  JsonEnum.mk "Message"
    [JsonEnumVariant.mk "Standard" "Message::Standard"
      (PropType.Obj (JsonObject.mk "MessageStandard"
        [JsonObjectFieldInfo.mk "ok" none PropType.Boolean]))]

/-- A payload that has a `type` key but no `subtype` key. -/
def exNoSubtypePayload : Json := Json.obj [("type", Json.str "standard")]

/-- A method whose top-level response shape is an enum with no variants. -/
def emptyEnumMethod : Method :=
  ⟨"chat.qux", "d", "u", [], ⟨"", PropType.Enum (JsonEnum.mk "QuxResponse" []), []⟩⟩

/-! ## Claims -/

/-- Helper: `charListLe` is total. -/
theorem charListLe_total : ∀ as bs : List Char,
    charListLe as bs = true ∨ charListLe bs as = true
  | [], _ => Or.inl rfl
  | _ :: _, [] => Or.inr rfl
  | a :: as, b :: bs => by
    rcases lt_trichotomy a b with h | h | h
    · left
      simp [charListLe, h]
    · subst h
      rcases charListLe_total as bs with ih | ih
      · left
        simp [charListLe, ih]
      · right
        simp [charListLe, ih]
    · right
      simp [charListLe, h]

/-- Helper: `charListLe` is transitive. -/
theorem charListLe_trans : ∀ as bs cs : List Char,
    charListLe as bs = true → charListLe bs cs = true → charListLe as cs = true
  | [], _, _, _, _ => rfl
  | _ :: _, [], _, h, _ => by simp [charListLe] at h
  | _ :: _, _ :: _, [], _, h2 => by simp [charListLe] at h2
  | a :: as, b :: bs, c :: cs, h1, h2 => by
    rcases lt_trichotomy a b with hab | hab | hab
    · rcases lt_trichotomy b c with hbc | hbc | hbc
      · simp [charListLe, lt_trans hab hbc]
      · subst hbc
        simp [charListLe, hab]
      · simp [charListLe, hbc, asymm hbc] at h2
    · subst hab
      rcases lt_trichotomy a c with hbc | hbc | hbc
      · simp [charListLe, hbc]
      · subst hbc
        simp only [charListLe, lt_self_iff_false, if_false] at h1 h2 ⊢
        exact charListLe_trans as bs cs h1 h2
      · simp [charListLe, hbc, asymm hbc] at h2
    · simp [charListLe, hab, asymm hab] at h1

/-- C1: for every generated Object type with an `ok` field, the synthesized
`to_result` returns `Ok` of the object itself when `ok` is true; when `ok` is
false and the `error` field holds a code string, it returns the declared
error-taxonomy variant whose wire name equals that code exactly and
case-sensitively, or the `Unknown` variant carrying the code verbatim when no
declared code matches; when `ok` is false and no `error` string is present, it
returns the `MalformedResponse` variant. -/
theorem obj_to_result_classification {ρ : Type} (errors : List ApiError)
    (o : ObjValue ρ) :
    (o.ok = true → ObjValue.to_result errors o = Except.ok o) ∧
    (∀ code, o.ok = false → o.error = some code →
      ((∃ e ∈ errors, e.name = code) →
        ObjValue.to_result errors o = Except.error (ApiErrorValue.declared code)) ∧
      ((∀ e ∈ errors, e.name ≠ code) →
        ObjValue.to_result errors o = Except.error (ApiErrorValue.unknown code))) ∧
    (o.ok = false → o.error = none →
      ObjValue.to_result errors o = Except.error ApiErrorValue.malformedResponse) := by
  refine ⟨?_, ?_, ?_⟩
  · intro h
    simp [ObjValue.to_result, h]
  · intro code hok herr
    constructor
    · rintro ⟨e, he, hname⟩
      have hsome : (errors.find? (fun e => e.name == code)).isSome := by
        rw [List.find?_isSome]
        exact ⟨e, he, by simp [hname]⟩
      obtain ⟨e', hfind⟩ := Option.isSome_iff_exists.mp hsome
      have hname' : e'.name = code := by
        have := List.find?_some hfind
        simpa using this
      simp [ObjValue.to_result, hok, herr, classifyError, hfind, hname']
    · intro hall
      have hfind : errors.find? (fun e => e.name == code) = none := by
        rw [List.find?_eq_none]
        intro e he
        simp [hall e he]
      simp [ObjValue.to_result, hok, herr, classifyError, hfind]
  · intro hok herr
    simp [ObjValue.to_result, hok, herr]

/-- C1 witness: with one declared code `not_authed`, a failed response carrying
that code classifies to the declared variant. -/
theorem obj_to_result_classification_witness :
    ObjValue.to_result exErrors exObjErr =
      Except.error (ApiErrorValue.declared "not_authed") :=
  ((obj_to_result_classification exErrors exObjErr).2.1 "not_authed" rfl rfl).1
    ⟨⟨"not_authed", "No authentication token provided."⟩, by simp [exErrors], rfl⟩

/-- C2: the generated Enum deserialization reads the discriminator field
`subtype` if and only if the enum is named `Message`, else `type`; a payload
whose discriminator string equals a variant's snake-cased declared name (the
first such variant, as the generated match arms are tried in declaration
order) constructs exactly that variant from the full payload; a payload
missing the discriminator always fails with a missing-field error; a present
non-string discriminator fails with an invalid-type error; an unrecognized
discriminator fails with an unknown-variant error naming the received tag and
listing all known tags. -/
theorem enum_deserialize_dispatch {α : Type} (e : JsonEnum)
    (from_value : JsonEnumVariant → Json → Except String α) (value : Json) :
    (e.variant_field = if e.name = "Message" then "subtype" else "type") ∧
    (value.get e.variant_field = none →
      e.deserialize from_value value = Except.error (DeError.missingField "type")) ∧
    (∀ j, value.get e.variant_field = some j → j.as_str = none →
      e.deserialize from_value value = Except.error DeError.invalidType) ∧
    (∀ ty v a, value.get e.variant_field = some (Json.str ty) →
      e.variants.find? (fun w => toSnakeCase w.name == ty) = some v →
      from_value v value = Except.ok a →
      e.deserialize from_value value = Except.ok (v.qualified_name, a)) ∧
    (∀ ty, value.get e.variant_field = some (Json.str ty) →
      (∀ v ∈ e.variants, toSnakeCase v.name ≠ ty) →
      e.deserialize from_value value = Except.error
        (DeError.unknownVariant ty (e.variants.map (fun v => toSnakeCase v.name)))) := by
  refine ⟨?_, ?_, ?_, ?_, ?_⟩
  · simp [JsonEnum.variant_field]
  · intro h
    simp [JsonEnum.deserialize, h]
  · intro j hget hstr
    simp [JsonEnum.deserialize, hget, hstr]
  · intro ty v a hget hfind hparse
    simp [JsonEnum.deserialize, hget, Json.as_str, hfind, hparse]
  · intro ty hget hall
    have hfind : e.variants.find? (fun w => toSnakeCase w.name == ty) = none := by
      rw [List.find?_eq_none]
      intro v hv
      simp [hall v hv]
    simp [JsonEnum.deserialize, hget, Json.as_str, hfind]

/-- C2 witness: the payload with discriminator `foo_bar` constructs the
`FooBar` variant of `exEventEnum` from the full payload. -/
theorem enum_deserialize_dispatch_witness :
    exEventEnum.deserialize exParseInner exPayload = Except.ok ("Event::FooBar", 7) :=
  (enum_deserialize_dispatch exEventEnum exParseInner exPayload).2.2.2.1
    "foo_bar" exFooBarVariant 7 rfl rfl rfl

/-- C3 counterexample: `mBadEnum`'s top-level response shape is the Enum
`badOkEnum`, which does not satisfy has-ok, yet generation does not abort: it
emits output for the method. -/
theorem top_enum_without_ok_counterexample :
    mBadEnum.response.schema = PropType.Enum badOkEnum ∧
    JsonEnum.has_ok badOkEnum = false ∧
    (Method.generate mBadEnum).isOk = true :=
  ⟨rfl, rfl, rfl⟩

/-- C3 amended: for every method whose top-level response shape is an Enum not
satisfying has-ok, generation does NOT abort: the method is generated
successfully, and the emitted send call is the bare base call, without the
`.and_then(|o| o.to_result())` result-facade fold. -/
theorem top_enum_without_ok_amended (m : Method) (e : JsonEnum)
    (hschema : m.response.schema = PropType.Enum e)
    (hok : JsonEnum.has_ok e = false) :
    (Method.generate m).isOk = true ∧
    send_call_for m.name (toSnakeCase (lastSegment m.name))
        (toPascalCase (lastSegment m.name) ++ "Response")
        (toPascalCase (lastSegment m.name) ++ "Error") (PropType.Enum e) =
      Except.ok (base_call_text m.name
        (toPascalCase (lastSegment m.name) ++ "Response")
        (toPascalCase (lastSegment m.name) ++ "Error")) := by
  obtain ⟨n, vars⟩ := e
  constructor
  · simp [Method.generate, Response.generate, hschema, get_enum_to_response_impl,
      hok, Response.get_response_type, send_call_for, Except.isOk, Except.toBool]
  · simp [send_call_for, hok]

/-- C3 amended witness: generation succeeds on the concrete method `mBadEnum`
over the not-has-ok enum `badOkEnum`, and its send call is the bare base
call. -/
theorem top_enum_without_ok_amended_witness :
    (Method.generate mBadEnum).isOk = true ∧
    send_call_for mBadEnum.name (toSnakeCase (lastSegment mBadEnum.name))
        (toPascalCase (lastSegment mBadEnum.name) ++ "Response")
        (toPascalCase (lastSegment mBadEnum.name) ++ "Error")
        (PropType.Enum badOkEnum) =
      Except.ok (base_call_text mBadEnum.name
        (toPascalCase (lastSegment mBadEnum.name) ++ "Response")
        (toPascalCase (lastSegment mBadEnum.name) ++ "Error")) :=
  top_enum_without_ok_amended mBadEnum badOkEnum rfl rfl

/-- C4: for every method whose top-level response shape is neither an Object
nor an Enum, generation aborts the whole run with an error message naming the
derived response type (and thereby the method); no callable is emitted. -/
theorem non_object_enum_response_aborts (m : Method)
    (hobj : ∀ o, m.response.schema ≠ PropType.Obj o)
    (henum : ∀ e, m.response.schema ≠ PropType.Enum e) :
    Method.generate m = Except.error ("Top level response schema for " ++
      (toPascalCase (lastSegment m.name) ++ "Response") ++
      " is not an object or enum. " ++ m.response.schema.debugString) := by
  cases h : m.response.schema with
  | Obj o => exact absurd h (hobj o)
  | Enum e => exact absurd h (henum e)
  | Str => simp [Method.generate, Response.generate, h]
  | Int => simp [Method.generate, Response.generate, h]
  | Boolean => simp [Method.generate, Response.generate, h]
  | Arr p => simp [Method.generate, Response.generate, h]
  | Map p => simp [Method.generate, Response.generate, h]
  | Optional p => simp [Method.generate, Response.generate, h]

/-- C4 witness: the method `chat.bar`, whose response schema is a bare string,
aborts generation with a message naming `BarResponse`. -/
theorem non_object_enum_response_aborts_witness :
    Method.generate mStr = Except.error
      "Top level response schema for BarResponse is not an object or enum. Str" :=
  (non_object_enum_response_aborts mStr (fun _ h => nomatch h)
    (fun _ h => nomatch h)).trans (by rfl)

/-- C5: for every Enum all of whose variants recursively have-ok, the
synthesized `to_result` on a value of variant `V` with payload `p` succeeds if
and only if `p`'s own `to_result` succeeds, and on success re-wraps the inner
result back into the same variant `V`, preserving the variant tag (and on
failure propagates the inner error unchanged). -/
theorem enum_to_result_rewrap {ρ : Type} (errors : List ApiError) (tag : String)
    (inner : OkValue ρ) :
    ((OkValue.to_result errors (OkValue.variant tag inner)).isOk =
      (OkValue.to_result errors inner).isOk) ∧
    (∀ r, OkValue.to_result errors inner = Except.ok r →
      OkValue.to_result errors (OkValue.variant tag inner) =
        Except.ok (OkValue.variant tag r)) ∧
    (∀ err, OkValue.to_result errors inner = Except.error err →
      OkValue.to_result errors (OkValue.variant tag inner) = Except.error err) := by
  refine ⟨?_, ?_, ?_⟩
  · cases h : OkValue.to_result errors inner <;>
      simp [OkValue.to_result, h, Except.map, Except.isOk, Except.toBool]
  · intro r h
    simp [OkValue.to_result, h, Except.map]
  · intro err h
    simp [OkValue.to_result, h, Except.map]

/-- C5 witness: a successful inner object value re-wraps into the same
variant tag. -/
theorem enum_to_result_rewrap_witness :
    OkValue.to_result (ρ := Unit) [] exOkVariantVal =
      Except.ok (OkValue.variant "MessageResponse::Standard"
        (OkValue.obj ⟨true, none, ()⟩)) :=
  (enum_to_result_rewrap [] "MessageResponse::Standard"
    (OkValue.obj ⟨true, none, ()⟩)).2.1 (OkValue.obj ⟨true, none, ()⟩) rfl

/-- C6: the generated parameter-map insertion follows the table keyed on
(primitive type, optional?): a required boolean is always inserted as `"1"` if
true else `"0"`; an optional boolean is inserted with the same encoding only
if present; a required integer is always inserted in decimal string form and
an optional integer only if present; a required string-like value is always
inserted as-is and an optional one only if present; any unrecognized declared
type is encoded exactly like the string-like rows. -/
theorem param_insertion_table :
    (∀ (p : Param) (b : Bool), p.ty = "boolean" → p.optional = false →
      p.inserted (FieldValue.reqBool b) = some (p.name, if b then "1" else "0")) ∧
    (∀ p : Param, p.ty = "boolean" → p.optional = true →
      p.inserted (FieldValue.optBool none) = none ∧
      ∀ b, p.inserted (FieldValue.optBool (some b)) =
        some (p.name, if b then "1" else "0")) ∧
    (∀ (p : Param) (n : Nat), p.ty = "integer" → p.optional = false →
      p.inserted (FieldValue.reqInt n) = some (p.name, toString n)) ∧
    (∀ p : Param, p.ty = "integer" → p.optional = true →
      p.inserted (FieldValue.optInt none) = none ∧
      ∀ n, p.inserted (FieldValue.optInt (some n)) = some (p.name, toString n)) ∧
    (∀ (p : Param) (s : String), p.ty ≠ "boolean" → p.ty ≠ "integer" →
      p.optional = false → p.inserted (FieldValue.reqStr s) = some (p.name, s)) ∧
    (∀ p : Param, p.ty ≠ "boolean" → p.ty ≠ "integer" → p.optional = true →
      p.inserted (FieldValue.optStr none) = none ∧
      ∀ s, p.inserted (FieldValue.optStr (some s)) = some (p.name, s)) := by
  refine ⟨?_, ?_, ?_, ?_, ?_, ?_⟩
  · intro p b hty hopt
    simp [Param.inserted, hty, hopt]
  · intro p hty hopt
    refine ⟨?_, fun b => ?_⟩ <;> simp [Param.inserted, hty, hopt]
  · intro p n hty hopt
    simp [Param.inserted, hty, hopt]
  · intro p hty hopt
    refine ⟨?_, fun n => ?_⟩ <;> simp [Param.inserted, hty, hopt]
  · intro p s hty1 hty2 hopt
    simp [Param.inserted, hty1, hty2, hopt]
  · intro p hty1 hty2 hopt
    refine ⟨?_, fun s => ?_⟩ <;> simp [Param.inserted, hty1, hty2, hopt]

/-- C6 witness: the required boolean `as_user=true` encodes to `"1"`. -/
theorem param_insertion_table_witness :
    exBoolParam.inserted (FieldValue.reqBool true) = some ("as_user", "1") :=
  param_insertion_table.1 exBoolParam true rfl rfl

/-- C7: for every rendered Object the emitted field declarations are
the name-sorted reordering of the declared fields (sorted by name and a
permutation of the declared list, not the declared order); the field named
`ok` is emitted with the present-but-defaulted annotation `#[serde(default)]`
and no `pub`; the field named `error` gets no marker at all (non-public);
every other field is marked `pub`. -/
theorem object_field_rendering (o : JsonObject) :
    List.Sorted fieldLe (sortFieldsByName o.fields) ∧
    (sortFieldsByName o.fields).Perm o.fields ∧
    o.renderedFields = (sortFieldsByName o.fields).map JsonObjectFieldInfo.to_string ∧
    fieldMarker "ok" = "#[serde(default)]" ∧
    fieldMarker "error" = "" ∧
    (∀ n : String, n ≠ "ok" → n ≠ "error" → fieldMarker n = "pub") ∧
    (∀ f : JsonObjectFieldInfo, f.rename = none →
      f.to_string = fieldMarker f.name ++ " " ++ f.name ++ ": " ++
        f.ty.to_rs_type ++ ",") := by
  haveI : IsTotal JsonObjectFieldInfo fieldLe :=
    ⟨fun a b => charListLe_total a.name.toList b.name.toList⟩
  haveI : IsTrans JsonObjectFieldInfo fieldLe :=
    ⟨fun a b c h₁ h₂ => charListLe_trans a.name.toList b.name.toList c.name.toList h₁ h₂⟩
  refine ⟨?_, ?_, rfl, rfl, rfl, ?_, ?_⟩
  · exact List.sorted_insertionSort fieldLe o.fields
  · exact List.perm_insertionSort fieldLe o.fields
  · intro n h1 h2
    simp [fieldMarker, h1, h2]
  · intro f hf
    simp [JsonObjectFieldInfo.to_string, hf]

/-- C7 witness: on `exObj` (declared order `ts`, `ok`, `channel`) the sort
reorders by name, and the ordinary field `channel` is public. -/
theorem object_field_rendering_witness :
    fieldMarker "channel" = "pub" ∧
    sortFieldsByName exObj.fields =
      [JsonObjectFieldInfo.mk "channel" none PropType.Str,
       JsonObjectFieldInfo.mk "ok" none PropType.Boolean,
       JsonObjectFieldInfo.mk "ts" none PropType.Str] :=
  ⟨(object_field_rendering exObj).2.2.2.2.2.1 "channel" (by decide) (by decide),
   by rfl⟩

/-- C8: module generation is a deterministic pure function of the schema
model: invoking the generator twice on an identical, unmutated schema tree
produces identical output text. -/
theorem module_generate_deterministic (m₁ m₂ : Module) (h : m₁ = m₂) :
    Module.generate m₁ = Module.generate m₂ := by
  rw [h]

/-- C8 witness: two invocations on the concrete module `exModule` agree. -/
theorem module_generate_deterministic_witness :
    Module.generate exModule = Module.generate exModule :=
  module_generate_deterministic exModule exModule rfl

/-- C9: the generated missing-discriminator failure reports the hardcoded
field name `"type"` regardless of which discriminator field was looked up; in
particular for an Enum named `Message`, whose discriminator field is
`subtype`, the missing-field error still names `type`. -/
theorem missing_discriminator_reports_type {α : Type} (e : JsonEnum)
    (from_value : JsonEnumVariant → Json → Except String α) (value : Json)
    (hmiss : value.get e.variant_field = none) :
    (e.name = "Message" → e.variant_field = "subtype") ∧
    e.deserialize from_value value = Except.error (DeError.missingField "type") := by
  constructor
  · intro h
    simp [JsonEnum.variant_field, h]
  · simp [JsonEnum.deserialize, hmiss]

/-- C9 witness: the `Message` enum looks up `subtype`; a payload carrying only
a `type` key is missing the discriminator, and the failure names `type`. -/
theorem missing_discriminator_reports_type_witness :
    exMessageEnum.variant_field = "subtype" ∧
    exMessageEnum.deserialize exParseInner exNoSubtypePayload =
      Except.error (DeError.missingField "type") :=
  ⟨(missing_discriminator_reports_type exMessageEnum exParseInner
      exNoSubtypePayload rfl).1 rfl,
   (missing_discriminator_reports_type exMessageEnum exParseInner
      exNoSubtypePayload rfl).2⟩

/-- C10: an Enum with an empty variant list satisfies has-ok vacuously, is
given a `to_result` facade by `get_enum_to_response_impl`, and as a top-level
method response is generated without error. -/
theorem empty_enum_vacuous_has_ok (name error_ty : String) (m : Method)
    (hschema : m.response.schema = PropType.Enum (JsonEnum.mk name [])) :
    JsonEnum.has_ok (JsonEnum.mk name []) = true ∧
    (get_enum_to_response_impl (JsonEnum.mk name []) error_ty).isOk = true ∧
    get_enum_to_response_impl (JsonEnum.mk name []) error_ty ≠ Except.ok none ∧
    (Method.generate m).isOk = true := by
  refine ⟨rfl, ?_, ?_, ?_⟩
  · simp [get_enum_to_response_impl, enumInnerImpls, JsonEnum.has_ok,
      variantsHaveOk, Except.isOk, Except.toBool]
  · simp [get_enum_to_response_impl, enumInnerImpls, JsonEnum.has_ok, variantsHaveOk]
  · simp [Method.generate, Response.generate, hschema, get_enum_to_response_impl,
      enumInnerImpls, JsonEnum.has_ok, variantsHaveOk, Response.get_response_type,
      send_call_for, Except.isOk, Except.toBool]

/-- C10 witness: the concrete empty-variant enum `QuxResponse` has-ok and its
method generates successfully. -/
theorem empty_enum_vacuous_has_ok_witness :
    JsonEnum.has_ok (JsonEnum.mk "QuxResponse" []) = true ∧
    (Method.generate emptyEnumMethod).isOk = true :=
  ⟨(empty_enum_vacuous_has_ok "QuxResponse" "QuxError" emptyEnumMethod rfl).1,
   (empty_enum_vacuous_has_ok "QuxResponse" "QuxError" emptyEnumMethod rfl).2.2.2⟩

end SlackGen
